import Mathlib

/-!
Shallow embedding of the core simulation logic of
`src/seedling_simulator.py` (a Streamlit financial projection script for a
seedling nursery). Python float arithmetic is modelled over `ℚ`; the one
non-finite float value the script manufactures, `float("inf")` as the ROI
sentinel, is modelled by an explicit `PyFloat` sum type. The script has no
validation and no raised exception: every division is guarded by an `if`,
which `simulateE` makes explicit by threading the three divisions through
`Except`.
-/

namespace SeedlingSimulator

/-- Source constant `VEG_CYCLES_PER_YEAR = 4` (line 19). -/
def VEG_CYCLES_PER_YEAR : ℚ := 4

/-- Source constant `TREE_CYCLES_PER_YEAR = 1` (line 20). -/
def TREE_CYCLES_PER_YEAR : ℚ := 1

/-- The sidebar parameters the core simulation logic reads (lines 24-139).
Each widget value is a Python number; all are modelled as rationals
(`success_rate` is the slider percentage already divided by 100, line 82). -/
structure ScenarioInput where
  greenhouse_cost : ℚ
  irrigation_cost : ℚ
  agric_inputs_cost : ℚ
  labor_cost_per_month : ℚ
  initial_veg_seedlings_per_cycle : ℚ
  successful_tree_seedlings_target : ℚ
  success_rate : ℚ
  avg_price_veg : ℚ
  seed_cost_veg_cycle : ℚ
  medium_cost_veg_cycle : ℚ
  avg_price_tree : ℚ
  seed_cost_tree_cycle : ℚ
  medium_cost_tree_cycle : ℚ

/-- A Python float value that is either an ordinary finite number or the
special value `float("inf")` that line 167 stores into `roi_years`. -/
inductive PyFloat where
  | finite (q : ℚ) : PyFloat
  | inf : PyFloat
  deriving DecidableEq

/-- Line 146: `production_cost = greenhouse_cost + irrigation_cost + agric_inputs_cost`. -/
def production_cost (i : ScenarioInput) : ℚ :=
  i.greenhouse_cost + i.irrigation_cost + i.agric_inputs_cost

/-- Line 149: `successful_veg_per_cycle = initial_veg_seedlings_per_cycle * success_rate`. -/
def successful_veg_per_cycle (i : ScenarioInput) : ℚ :=
  i.initial_veg_seedlings_per_cycle * i.success_rate

/-- Line 150: `annual_successful_veg = successful_veg_per_cycle * VEG_CYCLES_PER_YEAR`. -/
def annual_successful_veg (i : ScenarioInput) : ℚ :=
  successful_veg_per_cycle i * VEG_CYCLES_PER_YEAR

/-- Line 151: `annual_revenue_veg = annual_successful_veg * avg_price_veg`. -/
def annual_revenue_veg (i : ScenarioInput) : ℚ :=
  annual_successful_veg i * i.avg_price_veg

/-- Line 152: `opex_per_veg_cycle = seed_cost_veg_cycle + medium_cost_veg_cycle`. -/
def opex_per_veg_cycle (i : ScenarioInput) : ℚ :=
  i.seed_cost_veg_cycle + i.medium_cost_veg_cycle

/-- Line 153: `annual_opex_veg = opex_per_veg_cycle * VEG_CYCLES_PER_YEAR`. -/
def annual_opex_veg (i : ScenarioInput) : ℚ :=
  opex_per_veg_cycle i * VEG_CYCLES_PER_YEAR

/-- Line 157: `initial_tree_seedlings_per_year =
successful_tree_seedlings_target / success_rate if success_rate > 0 else 0`. -/
def initial_tree_seedlings_per_year (i : ScenarioInput) : ℚ :=
  if 0 < i.success_rate then i.successful_tree_seedlings_target / i.success_rate else 0

/-- Line 158: `annual_revenue_tree = successful_tree_seedlings_target * avg_price_tree`. -/
def annual_revenue_tree (i : ScenarioInput) : ℚ :=
  i.successful_tree_seedlings_target * i.avg_price_tree

/-- Line 159: `opex_per_tree_cycle = seed_cost_tree_cycle + medium_cost_tree_cycle`. -/
def opex_per_tree_cycle (i : ScenarioInput) : ℚ :=
  i.seed_cost_tree_cycle + i.medium_cost_tree_cycle

/-- Line 160: `annual_opex_tree = opex_per_tree_cycle * TREE_CYCLES_PER_YEAR`. -/
def annual_opex_tree (i : ScenarioInput) : ℚ :=
  opex_per_tree_cycle i * TREE_CYCLES_PER_YEAR

/-- Line 163: `total_annual_revenue = annual_revenue_veg + annual_revenue_tree`. -/
def total_annual_revenue (i : ScenarioInput) : ℚ :=
  annual_revenue_veg i + annual_revenue_tree i

/-- Line 165: `total_annual_opex = annual_opex_veg + annual_opex_tree +
(labor_cost_per_month * 12)` (labor enters once, as a full-year lump). -/
def total_annual_opex (i : ScenarioInput) : ℚ :=
  annual_opex_veg i + annual_opex_tree i + i.labor_cost_per_month * 12

/-- Line 166: `total_annual_profit = total_annual_revenue - total_annual_opex`. -/
def total_annual_profit (i : ScenarioInput) : ℚ :=
  total_annual_revenue i - total_annual_opex i

/-- Line 167: `roi_years = production_cost / total_annual_profit if
total_annual_profit > 0 else float("inf")`. -/
def roi_years (i : ScenarioInput) : PyFloat :=
  if 0 < total_annual_profit i then
    PyFloat.finite (production_cost i / total_annual_profit i)
  else PyFloat.inf

/-- The ROI cell of the displayed summary table (line 275): the formatted
number of years when `roi_years` is finite, the textual fallback
`"No positive profit"` when it is `float("inf")`. -/
inductive RoiCell where
  | years (q : ℚ) : RoiCell
  | noPositiveProfit : RoiCell
  deriving DecidableEq

/-- Line 275: `f"{roi_years:.1f} years" if roi_years != float("inf") else
"No positive profit"`, keeping the numeric payload exact. -/
def roi_cell (i : ScenarioInput) : RoiCell :=
  match roi_years i with
  | PyFloat.finite q => RoiCell.years q
  | PyFloat.inf => RoiCell.noPositiveProfit

/-- The three options of the risk `select_slider` (line 289). The option
strings are mutually exclusive, so the two sequential `if`s of lines 295-305
select exactly one branch. -/
inductive Risk where
  | noRisk : Risk
  | drought : Risk
  | pest : Risk

/-- Lines 300-301 (only reached in the Pest branch; otherwise the yield
figure visible after the risk block is the base one): vegetable sellable
yield per cycle after the risk event. -/
def adj_successful_veg (i : ScenarioInput) (r : Risk) : ℚ :=
  match r with
  | Risk.pest => successful_veg_per_cycle i * 0.85
  | _ => successful_veg_per_cycle i

/-- Line 301 (Pest branch only; otherwise the base figure): tree sellable
yield per year after the risk event. -/
def adj_successful_tree (i : ScenarioInput) (r : Risk) : ℚ :=
  match r with
  | Risk.pest => i.successful_tree_seedlings_target * 0.85
  | _ => i.successful_tree_seedlings_target

/-- Lines 293-304: `adjusted_revenue` starts as `total_annual_revenue`, is
multiplied by `0.80` in the Drought branch, and is recomputed from the
`0.85`-scaled yields in the Pest branch. -/
def adjusted_revenue (i : ScenarioInput) (r : Risk) : ℚ :=
  match r with
  | Risk.noRisk => total_annual_revenue i
  | Risk.drought => total_annual_revenue i * 0.80
  | Risk.pest =>
      (adj_successful_veg i Risk.pest * VEG_CYCLES_PER_YEAR) * i.avg_price_veg +
        adj_successful_tree i Risk.pest * i.avg_price_tree

/-- Line 307: `adjusted_annual_profit = adjusted_revenue - total_annual_opex`. -/
def adjusted_annual_profit (i : ScenarioInput) (r : Risk) : ℚ :=
  adjusted_revenue i r - total_annual_opex i

/-- Lines 312-315: `pct_change = ((adjusted_annual_profit - total_annual_profit)
/ abs(total_annual_profit)) * 100 if total_annual_profit != 0 else 0.0`. -/
def pct_change (i : ScenarioInput) (r : Risk) : ℚ :=
  if total_annual_profit i ≠ 0 then
    (adjusted_annual_profit i r - total_annual_profit i) / |total_annual_profit i| * 100
  else 0

/-- The figures of the risk block as a record: the yields visible after the
block, the adjusted revenue and the adjusted profit. -/
structure RiskAdjusted where
  veg_per_cycle : ℚ
  tree_per_year : ℚ
  revenue : ℚ
  profit : ℚ
  deriving DecidableEq

/-- The risk transform of lines 293-307 bundled as one function of the base
result and the selected scenario. -/
def apply_risk (i : ScenarioInput) (r : Risk) : RiskAdjusted :=
  { veg_per_cycle := adj_successful_veg i r
    tree_per_year := adj_successful_tree i r
    revenue := adjusted_revenue i r
    profit := adjusted_annual_profit i r }

/-- The base (no-risk) figures in the same record shape. -/
def base_result (i : ScenarioInput) : RiskAdjusted :=
  { veg_per_cycle := successful_veg_per_cycle i
    tree_per_year := i.successful_tree_seedlings_target
    revenue := total_annual_revenue i
    profit := total_annual_profit i }

/-- Python division as a fallible operation: raising `ZeroDivisionError` on a
zero denominator, returning the exact quotient otherwise. -/
def pyDiv (a b : ℚ) : Except String ℚ :=
  if b = 0 then Except.error "ZeroDivisionError" else Except.ok (a / b)

/-- The record of figures the script computes and displays for one evaluation
(dashboard metrics, tables, risk panel). -/
structure SimOutput where
  production_cost : ℚ
  initial_tree_seedlings_per_year : ℚ
  total_annual_revenue : ℚ
  total_annual_opex : ℚ
  total_annual_profit : ℚ
  roi_years : PyFloat
  adjusted_revenue : ℚ
  adjusted_annual_profit : ℚ
  pct_change : ℚ
  deriving DecidableEq

/-- The full pipeline with its three divisions (lines 157, 167, 313) made
fallible through `Except`, each behind the exact guard the source writes
(`success_rate > 0`, `total_annual_profit > 0`, `total_annual_profit != 0`).
The non-fallible arithmetic reuses the definitions above. -/
def simulateE (i : ScenarioInput) (r : Risk) : Except String SimOutput := do
  let its ← if 0 < i.success_rate then
      pyDiv i.successful_tree_seedlings_target i.success_rate
    else pure 0
  let roi ← if 0 < total_annual_profit i then do
      let q ← pyDiv (production_cost i) (total_annual_profit i)
      pure (PyFloat.finite q)
    else pure PyFloat.inf
  let pct ← if total_annual_profit i ≠ 0 then do
      let q ← pyDiv (adjusted_annual_profit i r - total_annual_profit i)
        |total_annual_profit i|
      pure (q * 100)
    else pure 0
  pure
    { production_cost := production_cost i
      initial_tree_seedlings_per_year := its
      total_annual_revenue := total_annual_revenue i
      total_annual_opex := total_annual_opex i
      total_annual_profit := total_annual_profit i
      roi_years := roi
      adjusted_revenue := adjusted_revenue i r
      adjusted_annual_profit := adjusted_annual_profit i r
      pct_change := pct }

/-- The output record assembled from the pure definitions; `simulateE_ok`
shows the fallible pipeline always succeeds with exactly this record. -/
def mkOutput (i : ScenarioInput) (r : Risk) : SimOutput :=
  { production_cost := production_cost i
    initial_tree_seedlings_per_year := initial_tree_seedlings_per_year i
    total_annual_revenue := total_annual_revenue i
    total_annual_opex := total_annual_opex i
    total_annual_profit := total_annual_profit i
    roi_years := roi_years i
    adjusted_revenue := adjusted_revenue i r
    adjusted_annual_profit := adjusted_annual_profit i r
    pct_change := pct_change i r }

/-- Every guarded division succeeds: the pipeline never raises and produces
the record of the pure definitions. -/
theorem simulateE_ok (i : ScenarioInput) (r : Risk) :
    simulateE i r = Except.ok (mkOutput i r) := by
  unfold simulateE mkOutput pyDiv initial_tree_seedlings_per_year roi_years pct_change
  split_ifs with h1 h2 h3 <;>
    simp_all [bind, Except.bind, pure, Except.pure, ne_of_gt, abs_eq_zero]

/-- The widget default values of the sidebar (lines 24-139): greenhouse 300,
irrigation 200, agric inputs 200, labor 150/month, 10000 veg seedlings per
cycle, 2950 target trees, success rate 85%, veg price 0.15, veg seed 100,
veg medium 100, tree price 4.50, tree seed 150, tree medium 150. -/
def sampleInput : ScenarioInput :=
  ⟨300, 200, 200, 150, 10000, 2950, 0.85, 0.15, 100, 100, 4.5, 150, 150⟩

/-- The default values with only the success rate changed, to 50%. -/
def sampleInputHalfRate : ScenarioInput :=
  ⟨300, 200, 200, 150, 10000, 2950, 0.5, 0.15, 100, 100, 4.5, 150, 150⟩

/-- Every parameter zero: revenue, opex and profit are all zero. -/
def zeroInput : ScenarioInput :=
  ⟨0, 0, 0, 0, 0, 0, 0, 0, 0, 0, 0, 0, 0⟩

/-- The default values with the success rate set to zero. -/
def zeroRateInput : ScenarioInput :=
  ⟨300, 200, 200, 150, 10000, 2950, 0, 0.15, 100, 100, 4.5, 150, 150⟩

/-- The default values with a negative greenhouse cost: outside the
documented domain of the input. -/
def badInput : ScenarioInput :=
  ⟨-5, 200, 200, 150, 10000, 2950, 0.85, 0.15, 100, 100, 4.5, 150, 150⟩

/-- The two inputs agree on every field except `success_rate`. -/
def agrees_except_success_rate (i i' : ScenarioInput) : Prop :=
  i.greenhouse_cost = i'.greenhouse_cost ∧
  i.irrigation_cost = i'.irrigation_cost ∧
  i.agric_inputs_cost = i'.agric_inputs_cost ∧
  i.labor_cost_per_month = i'.labor_cost_per_month ∧
  i.initial_veg_seedlings_per_cycle = i'.initial_veg_seedlings_per_cycle ∧
  i.successful_tree_seedlings_target = i'.successful_tree_seedlings_target ∧
  i.avg_price_veg = i'.avg_price_veg ∧
  i.seed_cost_veg_cycle = i'.seed_cost_veg_cycle ∧
  i.medium_cost_veg_cycle = i'.medium_cost_veg_cycle ∧
  i.avg_price_tree = i'.avg_price_tree ∧
  i.seed_cost_tree_cycle = i'.seed_cost_tree_cycle ∧
  i.medium_cost_tree_cycle = i'.medium_cost_tree_cycle

/-- Annual revenue recomputed from given per-cycle vegetable and per-year
tree sellable yields at the given category prices (the shape of lines
302-304). -/
def revenue_from_yields (veg_per_cycle tree_per_year price_veg price_tree : ℚ) : ℚ :=
  veg_per_cycle * VEG_CYCLES_PER_YEAR * price_veg + tree_per_year * price_tree

/-- Because revenue is linear in the yields and Pest scales both categories
by the same factor, the recomputed Pest revenue always equals a flat 0.85
scaling of the base revenue. -/
theorem pest_revenue_linear (i : ScenarioInput) :
    adjusted_revenue i Risk.pest = 0.85 * total_annual_revenue i := by
  simp only [adjusted_revenue, adj_successful_veg, adj_successful_tree, total_annual_revenue,
    annual_revenue_veg, annual_successful_veg, successful_veg_per_cycle, annual_revenue_tree,
    VEG_CYCLES_PER_YEAR]
  ring

/-- Base annual revenue is non-negative whenever counts, prices and the
success rate are non-negative. -/
theorem total_annual_revenue_nonneg (i : ScenarioInput)
    (hv : 0 ≤ i.initial_veg_seedlings_per_cycle)
    (ht : 0 ≤ i.successful_tree_seedlings_target)
    (hpv : 0 ≤ i.avg_price_veg) (hpt : 0 ≤ i.avg_price_tree)
    (hs0 : 0 ≤ i.success_rate) : 0 ≤ total_annual_revenue i := by
  unfold total_annual_revenue annual_revenue_veg annual_successful_veg successful_veg_per_cycle
    annual_revenue_tree VEG_CYCLES_PER_YEAR
  have h4 : (0 : ℚ) ≤ 4 := by norm_num
  exact add_nonneg (mul_nonneg (mul_nonneg (mul_nonneg hv hs0) h4) hpv) (mul_nonneg ht hpt)

/-- Claim C1, counterexample: at the all-zero input the annual profit is not
positive and the stored ROI value is the raw Python float infinity — not an
optional/none sentinel — so a raw infinite numeric value does sit in the
result field (the display table, not the field, holds the textual fallback). -/
theorem c1_roi_raw_infinity_cex :
    total_annual_profit zeroInput ≤ 0 ∧ roi_years zeroInput = PyFloat.inf := by
  norm_num [roi_years, total_annual_profit, total_annual_revenue, annual_revenue_veg,
    annual_successful_veg, successful_veg_per_cycle, annual_revenue_tree, total_annual_opex,
    annual_opex_veg, opex_per_veg_cycle, annual_opex_tree, opex_per_tree_cycle,
    VEG_CYCLES_PER_YEAR, TREE_CYCLES_PER_YEAR, zeroInput]

/-- Claim C1 (amended): when profit is not positive the ROI field holds the
float("inf") sentinel and the displayed summary cell is the textual fallback
"No positive profit", so no raw infinity reaches the displayed record; when
profit is positive, ROI equals setup cost divided by annual profit. -/
theorem c1_roi_sentinel (i : ScenarioInput) :
    (total_annual_profit i ≤ 0 →
      roi_years i = PyFloat.inf ∧ roi_cell i = RoiCell.noPositiveProfit) ∧
    (0 < total_annual_profit i →
      roi_years i = PyFloat.finite (production_cost i / total_annual_profit i) ∧
      roi_cell i = RoiCell.years (production_cost i / total_annual_profit i)) := by
  constructor
  · intro h
    have hni : roi_years i = PyFloat.inf := by
      unfold roi_years
      rw [if_neg (not_lt.mpr h)]
    exact ⟨hni, by simp [roi_cell, hni]⟩
  · intro h
    have hfin : roi_years i = PyFloat.finite (production_cost i / total_annual_profit i) := by
      unfold roi_years
      rw [if_pos h]
    exact ⟨hfin, by simp [roi_cell, hfin]⟩

/-- Claim C2, counterexample: an input with a negative greenhouse cost is
outside the documented domain, yet the pipeline raises no error and produces
a full result record — there is no typed ConfigurationError in the code. -/
theorem c2_no_config_error_cex :
    badInput.greenhouse_cost < 0 ∧
    simulateE badInput Risk.noRisk = Except.ok (mkOutput badInput Risk.noRisk) :=
  ⟨by norm_num [badInput], simulateE_ok badInput Risk.noRisk⟩

/-- Claim C2 (amended): the core performs no domain validation at all — for
every input, in-domain or not, and every risk scenario, the computation
proceeds without raising and produces the result record (range enforcement
exists only in the UI widget bounds, and the core clamps nothing). -/
theorem c2_no_validation (i : ScenarioInput) (r : Risk) :
    simulateE i r = Except.ok (mkOutput i r) :=
  simulateE_ok i r

/-- Claim C3, counterexample: at the default input the per-cycle opex of
each category is seed plus medium only (200 for vegetables, 300 for trees);
it differs from the spec formula labor * monthsPerCycle + seed + medium
(650 for the 3-month vegetable cycle, 2100 for the 12-month tree cycle). -/
theorem c3_opex_labor_cex :
    opex_per_veg_cycle sampleInput = 200 ∧
    opex_per_veg_cycle sampleInput ≠
      sampleInput.labor_cost_per_month * 3 + sampleInput.seed_cost_veg_cycle +
        sampleInput.medium_cost_veg_cycle ∧
    opex_per_tree_cycle sampleInput = 300 ∧
    opex_per_tree_cycle sampleInput ≠
      sampleInput.labor_cost_per_month * 12 + sampleInput.seed_cost_tree_cycle +
        sampleInput.medium_cost_tree_cycle := by
  norm_num [opex_per_veg_cycle, opex_per_tree_cycle, sampleInput]

/-- Claim C3 (amended): the per-cycle operating expense of a category is
seedCostPerCycle + mediumCostPerCycle only; labor is not attributed to
cycles but added once, as the full-year lump laborCostPerMonth * 12, in the
total annual opex. -/
theorem c3_opex_no_labor (i : ScenarioInput) :
    opex_per_veg_cycle i = i.seed_cost_veg_cycle + i.medium_cost_veg_cycle ∧
    opex_per_tree_cycle i = i.seed_cost_tree_cycle + i.medium_cost_tree_cycle ∧
    total_annual_opex i =
      annual_opex_veg i + annual_opex_tree i + i.labor_cost_per_month * 12 :=
  ⟨rfl, rfl, rfl⟩

/-- Claim C4, counterexample: at the default input the vegetable and tree
prices differ, yet the Pest-recomputed revenue equals exactly 0.85 times
the base revenue — the claimed input where they differ cannot exist, since
revenue is linear in the yields and both categories are scaled by the same
factor (see the amended theorem for every input). -/
theorem c4_pest_flat_scale_cex :
    sampleInput.avg_price_veg ≠ sampleInput.avg_price_tree ∧
    adjusted_revenue sampleInput Risk.pest = 0.85 * total_annual_revenue sampleInput :=
  ⟨by norm_num [sampleInput], pest_revenue_linear sampleInput⟩

/-- Claim C4 (amended): under PestOutbreak the adjusted revenue is the
revenue recomputed from the 0.85-scaled sellable yields of both categories;
by linearity this equals 0.85 * baseRevenue for every input, including all
inputs whose category prices differ. -/
theorem c4_pest_recompute (i : ScenarioInput) :
    adjusted_revenue i Risk.pest =
      revenue_from_yields (successful_veg_per_cycle i * 0.85)
        (i.successful_tree_seedlings_target * 0.85) i.avg_price_veg i.avg_price_tree ∧
    adjusted_revenue i Risk.pest = 0.85 * total_annual_revenue i :=
  ⟨rfl, pest_revenue_linear i⟩

/-- Claim C5: under Drought the adjusted revenue is exactly 0.80 times the
base revenue and the sellable yield figures of both categories are the
unchanged base figures. -/
theorem c5_drought_flat_revenue (i : ScenarioInput) :
    adjusted_revenue i Risk.drought = 0.80 * total_annual_revenue i ∧
    adj_successful_veg i Risk.drought = successful_veg_per_cycle i ∧
    adj_successful_tree i Risk.drought = i.successful_tree_seedlings_target := by
  refine ⟨?_, rfl, rfl⟩
  simp only [adjusted_revenue]
  ring

/-- Claim C6: for every input and risk scenario the adjusted profit is the
adjusted revenue minus the (risk-invariant) total annual opex, and the
percent change is (adjusted - base) / |base| * 100 when the base profit is
non-zero and 0 when the base profit is zero. -/
theorem c6_adjusted_profit_pct (i : ScenarioInput) (r : Risk) :
    adjusted_annual_profit i r = adjusted_revenue i r - total_annual_opex i ∧
    (total_annual_profit i ≠ 0 →
      pct_change i r =
        (adjusted_annual_profit i r - total_annual_profit i) / |total_annual_profit i| * 100) ∧
    (total_annual_profit i = 0 → pct_change i r = 0) := by
  refine ⟨rfl, ?_, ?_⟩
  · intro h
    unfold pct_change
    rw [if_pos h]
  · intro h
    unfold pct_change
    rw [if_neg (not_not.mpr h)]

/-- Claim C7: when the success rate is zero no division error is raised
anywhere in the pipeline — it still returns the full record — and the
back-computed required planted tree count falls back to 0. -/
theorem c7_zero_success_rate_safe (i : ScenarioInput) (r : Risk)
    (h : i.success_rate = 0) :
    simulateE i r = Except.ok (mkOutput i r) ∧
    initial_tree_seedlings_per_year i = 0 := by
  refine ⟨simulateE_ok i r, ?_⟩
  unfold initial_tree_seedlings_per_year
  rw [h]
  simp

/-- Claim C7, witness at the default input with the success rate set to 0. -/
theorem c7_zero_success_rate_safe_witness :
    zeroRateInput.success_rate = 0 ∧
    (simulateE zeroRateInput Risk.noRisk = Except.ok (mkOutput zeroRateInput Risk.noRisk) ∧
      initial_tree_seedlings_per_year zeroRateInput = 0) :=
  ⟨rfl, c7_zero_success_rate_safe zeroRateInput Risk.noRisk rfl⟩

/-- Claim C8: with non-negative cost inputs the setup cost is the sum of the
three one-off costs, hence non-negative; it is unchanged between two inputs
that differ only in the success rate, and the setup-cost field of the output
record is unchanged across risk scenarios. -/
theorem c8_setup_cost_invariant (i i' : ScenarioInput) (r r' : Risk)
    (h1 : 0 ≤ i.greenhouse_cost) (h2 : 0 ≤ i.irrigation_cost)
    (h3 : 0 ≤ i.agric_inputs_cost)
    (hag : agrees_except_success_rate i i') :
    production_cost i = i.greenhouse_cost + i.irrigation_cost + i.agric_inputs_cost ∧
    0 ≤ production_cost i ∧
    production_cost i = production_cost i' ∧
    (mkOutput i r).production_cost = (mkOutput i r').production_cost := by
  obtain ⟨e1, e2, e3, -⟩ := hag
  exact ⟨rfl, add_nonneg (add_nonneg h1 h2) h3,
    by unfold production_cost; rw [e1, e2, e3], rfl⟩

/-- Claim C8, witness at the default input against the same input with the
success rate halved, comparing the Drought and Pest scenarios. -/
theorem c8_setup_cost_invariant_witness :
    production_cost sampleInput =
      sampleInput.greenhouse_cost + sampleInput.irrigation_cost + sampleInput.agric_inputs_cost ∧
    0 ≤ production_cost sampleInput ∧
    production_cost sampleInput = production_cost sampleInputHalfRate ∧
    (mkOutput sampleInput Risk.drought).production_cost =
      (mkOutput sampleInput Risk.pest).production_cost :=
  c8_setup_cost_invariant sampleInput sampleInputHalfRate Risk.drought Risk.pest
    (by norm_num [sampleInput]) (by norm_num [sampleInput]) (by norm_num [sampleInput])
    ⟨rfl, rfl, rfl, rfl, rfl, rfl, rfl, rfl, rfl, rfl, rfl, rfl⟩

/-- Claim C9: applying the risk transform with the No Risk scenario is the
identity on the base result: yields, revenue and profit are unchanged. -/
theorem c9_apply_risk_none_id (i : ScenarioInput) :
    apply_risk i Risk.noRisk = base_result i :=
  rfl

/-- Claim C10: with non-negative prices and seedling counts and a success
rate in [0,1], no risk scenario increases the annual profit above the base
annual profit. -/
theorem c10_risk_never_increases_profit (i : ScenarioInput) (r : Risk)
    (hv : 0 ≤ i.initial_veg_seedlings_per_cycle)
    (ht : 0 ≤ i.successful_tree_seedlings_target)
    (hpv : 0 ≤ i.avg_price_veg) (hpt : 0 ≤ i.avg_price_tree)
    (hs0 : 0 ≤ i.success_rate) (_hs1 : i.success_rate ≤ 1) :
    adjusted_annual_profit i r ≤ total_annual_profit i := by
  have hrev : 0 ≤ total_annual_revenue i :=
    total_annual_revenue_nonneg i hv ht hpv hpt hs0
  have hadj : adjusted_revenue i r ≤ total_annual_revenue i := by
    cases r with
    | noRisk => exact le_refl _
    | drought =>
        simp only [adjusted_revenue]
        exact mul_le_of_le_one_right hrev (by norm_num)
    | pest =>
        rw [pest_revenue_linear i]
        exact mul_le_of_le_one_left hrev (by norm_num)
  unfold adjusted_annual_profit total_annual_profit
  exact sub_le_sub_right hadj _

/-- Claim C10, witness at the default input under the Drought scenario. -/
theorem c10_risk_never_increases_profit_witness :
    adjusted_annual_profit sampleInput Risk.drought ≤ total_annual_profit sampleInput :=
  c10_risk_never_increases_profit sampleInput Risk.drought
    (by norm_num [sampleInput]) (by norm_num [sampleInput]) (by norm_num [sampleInput])
    (by norm_num [sampleInput]) (by norm_num [sampleInput]) (by norm_num [sampleInput])

end SeedlingSimulator
